import Mathlib

/-!
Verification of the core logic of the `ansible-cisco-snmp` modules
(`library/cisco_snmp_cdp.py` and `library/cisco_snmp_switchport.py`):
the read-compare-write state reconciler (`set_state`), the interface-name
resolution walk, the enum/integer value codecs, and the per-invocation
orchestration with its "changed" aggregation (`changed_status`).

The SNMP transport (nelsnmp's `SnmpHandler`) is modelled as a device whose
readable values are an association list from OID strings to integers, with
an explicit set of OIDs whose SET operation fails.  `module.fail_json`
(which terminates the Python process) is modelled as an `Except` error;
an uncaught Python exception (a crash) is a distinct error constructor.
-/

/-- One SNMP operation issued to the device, recorded in a trace. -/
inductive SnmpOp where
  | get (oid : String)
  | set (oid : String) (value : Int)
deriving DecidableEq, Repr

/-- The OID an operation is addressed at. -/
def SnmpOp.oid : SnmpOp → String
  | .get o => o
  | .set o _ => o

/-- `true` exactly for SET (write) operations. -/
def SnmpOp.isSet : SnmpOp → Bool
  | .get _ => false
  | .set _ _ => true

/-- Number of SET (write) operations in a trace. -/
def countSets (trace : List SnmpOp) : Nat :=
  (trace.filter SnmpOp.isSet).length

/-- First-match lookup in an association list keyed by strings,
modelling Python dict indexing `d[k]` (returning `none` where Python
raises `KeyError`) and the device's value table. -/
def lookupAssoc {α : Type} : List (String × α) → String → Option α
  | [], _ => none
  | p :: rest, k => if p.1 = k then some p.2 else lookupAssoc rest k

/-- Overwrite every binding of key `k` with `v` (the device storing a new
value at an existing OID; keys absent from the list are not created,
matching a device that only holds its MIB's instances). -/
def updateAssoc (l : List (String × Int)) (k : String) (v : Int) :
    List (String × Int) :=
  l.map (fun p => if p.1 = k then (k, v) else p)

/-- The SNMP device as seen through nelsnmp: `vals` are the values a GET
returns per OID (a missing OID makes the GET raise), `failWrite` the OIDs
whose SET raises. -/
structure Device where
  vals : List (String × Int)
  failWrite : List String
deriving DecidableEq, Repr

/-- Outcome of one `set_state` call: the Ansible-level result (`ok changed`
or a `fail_json` message), the device afterwards, and the SNMP operations
issued. -/
structure StepOut where
  result : Except String Bool
  dev : Device
  trace : List SnmpOp
deriving Repr

/-- `set_state(dev, oid, desired_state, module)` from both modules
(cisco_snmp_cdp.py lines 153-166, cisco_snmp_switchport.py lines 149-162):
GET the OID (a raising GET becomes `fail_json(msg=str(err))`, whose text
comes from the transport and is modelled by a fixed placeholder); if the
current value equals the desired one return `False` without writing;
otherwise SET it, turning a raising SET into
`fail_json(msg='Unable to write to device')`, and return `True`. -/
def set_state (dev : Device) (oid : String) (desired_state : Int) : StepOut :=
  match lookupAssoc dev.vals oid with
  | none => ⟨.error "No Such Instance", dev, [SnmpOp.get oid]⟩
  | some current_state =>
    if current_state = desired_state then
      ⟨.ok false, dev, [SnmpOp.get oid]⟩
    else if dev.failWrite.contains oid then
      ⟨.error "Unable to write to device", dev,
        [SnmpOp.get oid, SnmpOp.set oid desired_state]⟩
    else
      ⟨.ok true, { dev with vals := updateAssoc dev.vals oid desired_state },
        [SnmpOp.get oid, SnmpOp.set oid desired_state]⟩

/-- `changed_status(changed, has_changed)` (cisco_snmp_switchport.py lines
144-147, identically in cisco_snmp_cdp.py lines 147-150). -/
def changed_status (changed : Bool) (has_changed : Bool) : Bool :=
  if changed = true then true else has_changed

/-- `CDP_STATE` (cisco_snmp_cdp.py lines 141-144). -/
def CDP_STATE : List (String × Int) :=
  [("enabled", 1), ("disabled", 2)]

/-- `PORT_MODE` (cisco_snmp_switchport.py lines 134-140). -/
def PORT_MODE : List (String × Int) :=
  [("trunk", 1), ("access", 2), ("desirable", 3), ("auto", 4),
   ("trunk-nonegotiate", 5)]

/-- The `choices` list of the `mode` argument in the switchport module's
argument spec (cisco_snmp_switchport.py line 177). -/
def mode_choices : List String :=
  ["access", "trunk", "desireable", "auto", "trunk-nonegotiate"]

/-- The `choices` list documented for the `mode` option in the switchport
module's DOCUMENTATION block (cisco_snmp_switchport.py line 71). -/
def documented_mode_choices : List String :=
  ["access", "trunk", "desirable", "auto", "trunk-nonegotiate"]

/-- The `choices` lists of `cdp_global` and `cdp_interface`
(cisco_snmp_cdp.py lines 182-184). -/
def cdp_choices : List String :=
  ["enabled", "disabled"]

/-- Python whitespace accepted by `int()` around a numeric literal. -/
def isPySpace (c : Char) : Bool :=
  c = ' ' ∨ c = '\t' ∨ c = '\n' ∨ c = '\r' ∨
    c = Char.ofNat 11 ∨ c = Char.ofNat 12

/-- Strip leading and trailing Python whitespace. -/
def stripSpaces (l : List Char) : List Char :=
  ((l.dropWhile isPySpace).reverse.dropWhile isPySpace).reverse

/-- Value of a decimal digit character, `none` for a non-digit. -/
def digitVal (c : Char) : Option Nat :=
  if '0' ≤ c ∧ c ≤ '9' then some (c.toNat - 48) else none

/-- Accumulate the remaining decimal digits; any non-digit fails. -/
def parseDigitsAux (acc : Nat) : List Char → Option Nat
  | [] => some acc
  | c :: cs =>
    match digitVal c with
    | some d => parseDigitsAux (10 * acc + d) cs
    | none => none

/-- A non-empty run of decimal digits as a number. -/
def parseDigits : List Char → Option Nat
  | [] => none
  | c :: cs =>
    match digitVal c with
    | some d => parseDigitsAux d cs
    | none => none

/-- The Python builtin `int(s)` on a string, as called on `access_vlan` /
`native_vlan` (cisco_snmp_switchport.py lines 249 and 255): optional
surrounding whitespace, an optional sign, then a non-empty run of decimal
digits; anything else raises `ValueError` (`none` here). -/
def pyInt (s : String) : Option Int :=
  match stripSpaces s.data with
  | '+' :: cs => (parseDigits cs).map (fun n => (n : Int))
  | '-' :: cs => (parseDigits cs).map (fun n => -(n : Int))
  | cs => (parseDigits cs).map (fun n => (n : Int))

/-- Python `oid.rsplit('.', 1)[-1]` (cisco_snmp_cdp.py line 240,
cisco_snmp_switchport.py line 230): the part of the string after its last
`'.'`, or the whole string when it has none. -/
def pyRsplitDotLast (s : String) : String :=
  ⟨((s.data.reverse.takeWhile (fun c => c ≠ '.')).reverse)⟩

/-- The interface-name resolution loop of both modules (cisco_snmp_cdp.py
lines 234-240, cisco_snmp_switchport.py lines 224-230): `interface` starts
as `False` (`none`); the walk result `vartable` is a sequence of varbind
lists of `(oid, value)` pairs; every pair whose value equals the requested
name overwrites `interface` with the OID's last dotted component. -/
def resolve_interface (interface_name : String)
    (vartable : List (List (String × String))) : Option String :=
  vartable.foldl
    (fun acc varbinds =>
      varbinds.foldl
        (fun acc2 p =>
          if interface_name = p.2 then some (pyRsplitDotLast p.1) else acc2)
        acc)
    none

/-- The check following the loop (cisco_snmp_cdp.py lines 242-243,
cisco_snmp_switchport.py lines 232-233): a still-unset `interface` becomes
`fail_json(msg='Unable to find interface')`. -/
def resolve_or_fail (interface_name : String)
    (vartable : List (List (String × String))) : Except String String :=
  match resolve_interface interface_name vartable with
  | some interface => .ok interface
  | none => .error "Unable to find interface"

/-- `o.ifDescr` from nelsnmp's `CiscoOids` (the external OID catalog the
modules import; IF-MIB ifDescr). -/
def ifDescr : String := "1.3.6.1.2.1.2.2.1.2"

/-- `o.cdpGlobalRun` from nelsnmp's `CiscoOids` (CISCO-CDP-MIB). -/
def cdpGlobalRun : String := "1.3.6.1.4.1.9.9.23.1.3.1"

/-- `o.cdpInterfaceEnable` from nelsnmp's `CiscoOids` (CISCO-CDP-MIB). -/
def cdpInterfaceEnable : String := "1.3.6.1.4.1.9.9.23.1.1.1.1.2"

/-- `o.vlanTrunkPortDynamicState` from nelsnmp's `CiscoOids`
(CISCO-VTP-MIB). -/
def vlanTrunkPortDynamicState : String := "1.3.6.1.4.1.9.9.46.1.6.1.1.13"

/-- `o.vlanTrunkPortNativeVlan` from nelsnmp's `CiscoOids`
(CISCO-VTP-MIB). -/
def vlanTrunkPortNativeVlan : String := "1.3.6.1.4.1.9.9.46.1.6.1.1.5"

/-- `o.vmVlan` from nelsnmp's `CiscoOids` (CISCO-VLAN-MEMBERSHIP-MIB). -/
def vmVlan : String := "1.3.6.1.4.1.9.9.68.1.2.2.1.2"

/-- How an invocation fails: `failJson msg` is `module.fail_json(msg=...)`,
`pyError msg` an uncaught Python exception (process crash). -/
inductive Failure where
  | failJson (msg : String)
  | pyError (msg : String)
deriving DecidableEq, Repr

/-- Outcome of a whole invocation's setting-application phase: the final
`changed` flag or the failure, the device afterwards, and every SNMP
operation issued at a setting's OID during the invocation. -/
structure RunOut where
  result : Except Failure Bool
  dev : Device
  trace : List SnmpOp
deriving Repr

/-- One `if m_args[...]:` block of `main`: decode the desired value (a
decoding crash issues no SNMP operation), call `set_state`, and fold its
flag into `has_changed` via `changed_status`.  Returns the updated
accumulator, or the failure together with the device and trace so far. -/
def applySetting (dev : Device) (has_changed : Bool) (trace : List SnmpOp)
    (oid : String) (desired : Except Failure Int) :
    Except (Failure × Device × List SnmpOp) (Device × Bool × List SnmpOp) :=
  match desired with
  | .error f => .error (f, dev, trace)
  | .ok desired_state =>
    let s := set_state dev oid desired_state
    match s.result with
    | .error msg => .error (.failJson msg, s.dev, trace ++ s.trace)
    | .ok changed =>
      .ok (s.dev, changed_status changed has_changed, trace ++ s.trace)

/-- Python dict indexing `PORT_MODE[m]` / `CDP_STATE[m]`: a missing key
raises `KeyError`. -/
def dictIndex (table : List (String × Int)) (key : String) :
    Except Failure Int :=
  match lookupAssoc table key with
  | some v => .ok v
  | none => .error (.pyError ("KeyError: " ++ key))

/-- `int(s)` as an expression in `main`: a non-numeric string raises
`ValueError`, which no handler in `main` catches. -/
def intIndex (s : String) : Except Failure Int :=
  match pyInt s with
  | some v => .ok v
  | none =>
    .error (.pyError "invalid literal for int() with base 10")

/-- The running accumulator of `main`'s setting-application phase:
either the invocation already failed (with the device and trace at that
point — `fail_json` / a crash stop the process, so later blocks never
run), or `(dev, has_changed, trace)` so far. -/
abbrev RunAcc :=
  Except (Failure × Device × List SnmpOp) (Device × Bool × List SnmpOp)

/-- One whole `if m_args[param]:` block of `main`: skipped when the
parameter is absent (falsy); never reached when an earlier block already
failed (the process has exited). -/
def applyBlock (param : Option String) (oid : String)
    (decode : String → Except Failure Int) (st : RunAcc) : RunAcc :=
  match st with
  | .error e => .error e
  | .ok (dev, has_changed, trace) =>
    match param with
    | none => .ok (dev, has_changed, trace)
    | some s => applySetting dev has_changed trace oid (decode s)

/-- Package the accumulator as the invocation outcome
(`module.exit_json(changed=has_changed)` on success). -/
def runOut : RunAcc → RunOut
  | .error (f, d, t) => ⟨.error f, d, t⟩
  | .ok (d, hc, t) => ⟨.ok hc, d, t⟩

/-- The setting-application phase of the switchport module's `main`
(cisco_snmp_switchport.py lines 241-259): the `mode`, `access_vlan` and
`native_vlan` blocks in order, each skipped when its parameter is absent
(falsy), starting from `has_changed = False` and ending with
`{'changed': has_changed}`.  `interface` is the already-resolved index. -/
def switchport_apply (dev0 : Device) (interface : String)
    (mode access_vlan native_vlan : Option String) : RunOut :=
  runOut
    (applyBlock native_vlan (vlanTrunkPortNativeVlan ++ "." ++ interface)
      intIndex
      (applyBlock access_vlan (vmVlan ++ "." ++ interface) intIndex
        (applyBlock mode (vlanTrunkPortDynamicState ++ "." ++ interface)
          (dictIndex PORT_MODE)
          (.ok (dev0, false, [])))))

/-- The setting-application phase of the CDP module's `main`
(cisco_snmp_cdp.py lines 251-263): the `cdp_global` block at
`cdpGlobalRun + ".0"` then the `cdp_interface` block at
`cdpInterfaceEnable + "." + str(interface)`, each skipped when its
parameter is absent. -/
def cdp_apply (dev0 : Device) (interface : String)
    (cdp_global cdp_interface : Option String) : RunOut :=
  runOut
    (applyBlock cdp_interface (cdpInterfaceEnable ++ "." ++ interface)
      (dictIndex CDP_STATE)
      (applyBlock cdp_global (cdpGlobalRun ++ ".0") (dictIndex CDP_STATE)
        (.ok (dev0, false, []))))

/-- The trace component of the accumulator. -/
def accTrace : RunAcc → List SnmpOp
  | .error (_, _, t) => t
  | .ok (_, _, t) => t

/-- Number of operations (GETs and SETs) a trace holds at a given OID. -/
def countAtOid (oid : String) (trace : List SnmpOp) : Nat :=
  (trace.filter (fun op => SnmpOp.oid op == oid)).length

/-- Modelled from the spec: "if multiple entries match, the LAST match
encountered during the walk wins" — the index (last dotted component of
the OID) of the last entry of the flattened walk whose description equals
the requested name.  Spec-side definition, compared against
`resolve_interface` (which is translated from the source). -/
def spec_resolve_last (interface_name : String)
    (entries : List (String × String)) : Option String :=
  (entries.reverse.find? (fun p => interface_name == p.2)).map
    (fun p => pyRsplitDotLast p.1)

theorem lookupAssoc_updateAssoc_self (l : List (String × Int)) (k : String)
    (v w : Int) (h : lookupAssoc l k = some w) :
    lookupAssoc (updateAssoc l k v) k = some v := by
  induction l with
  | nil => simp [lookupAssoc] at h
  | cons p rest ih =>
    by_cases hk : p.1 = k
    · simp [updateAssoc, lookupAssoc, hk]
    · simp only [lookupAssoc, hk, if_false] at h
      simp only [updateAssoc, List.map_cons, hk, if_false, lookupAssoc]
      exact ih h

theorem lookupAssoc_updateAssoc_ne (l : List (String × Int)) (k k' : String)
    (v : Int) (h : k' ≠ k) :
    lookupAssoc (updateAssoc l k v) k' = lookupAssoc l k' := by
  induction l with
  | nil => simp [updateAssoc, lookupAssoc]
  | cons p rest ih =>
    by_cases hk : p.1 = k
    · simp only [updateAssoc, List.map_cons, hk, if_true, lookupAssoc]
      rw [if_neg (fun he : k = k' => h he.symm)]
      rw [if_neg (fun he : k = k' => h he.symm)]
      exact ih
    · simp only [updateAssoc, List.map_cons, hk, if_false, lookupAssoc]
      by_cases hk' : p.1 = k'
      · rw [if_pos hk', if_pos hk']
      · rw [if_neg hk', if_neg hk']
        exact ih

theorem set_state_trace_oids (dev : Device) (oid : String) (v : Int) :
    ∀ op ∈ (set_state dev oid v).trace, SnmpOp.oid op = oid := by
  intro op hop
  cases hl : lookupAssoc dev.vals oid with
  | none =>
    simp only [set_state, hl] at hop
    simp only [List.mem_singleton] at hop
    subst hop; rfl
  | some cur =>
    by_cases hc : cur = v
    · simp only [set_state, hl, hc, if_true] at hop
      simp only [List.mem_singleton] at hop
      subst hop; rfl
    · by_cases hw : dev.failWrite.contains oid
      · simp only [set_state, hl, hc, if_false, hw, if_true] at hop
        simp only [List.mem_cons, List.mem_singleton, List.not_mem_nil,
          or_false] at hop
        rcases hop with h | h <;> (subst h; rfl)
      · simp only [set_state, hl, hc, if_false, hw] at hop
        cases hop with
        | head => rfl
        | tail _ h2 =>
          cases h2 with
          | head => rfl
          | tail _ h3 => cases h3

theorem set_state_lookup_after (dev : Device) (oid : String) (v : Int)
    (c : Bool) (h : (set_state dev oid v).result = Except.ok c) :
    lookupAssoc (set_state dev oid v).dev.vals oid = some v := by
  cases hl : lookupAssoc dev.vals oid with
  | none => simp [set_state, hl] at h
  | some cur =>
    by_cases hc : cur = v
    · simp [set_state, hl, hc]
    · by_cases hw : oid ∈ dev.failWrite
      · simp [set_state, hl, hc, hw] at h
      · simp only [set_state, hl, hc, if_false]
        rw [if_neg (by simpa using hw)]
        exact lookupAssoc_updateAssoc_self dev.vals oid v cur hl

theorem append_right_ne (a b s : String) (h : a ≠ b) : a ++ s ≠ b ++ s := by
  intro he
  apply h
  apply String.ext
  have hd : a.data ++ s.data = b.data ++ s.data := by
    rw [← String.data_append, ← String.data_append, he]
  exact List.append_cancel_right hd

theorem accTrace_applySetting (dev : Device) (hc : Bool)
    (t : List SnmpOp) (oid : String) (des : Except Failure Int) :
    ∀ op ∈ accTrace (applySetting dev hc t oid des),
      op ∈ t ∨ SnmpOp.oid op = oid := by
  intro op hop
  cases des with
  | error f => simp only [applySetting, accTrace] at hop; exact Or.inl hop
  | ok v =>
    have htr := set_state_trace_oids dev oid v
    cases hs : (set_state dev oid v).result with
    | error msg =>
      simp only [applySetting, hs, accTrace] at hop
      rcases List.mem_append.mp hop with h | h
      · exact Or.inl h
      · exact Or.inr (htr op h)
    | ok c =>
      simp only [applySetting, hs, accTrace] at hop
      rcases List.mem_append.mp hop with h | h
      · exact Or.inl h
      · exact Or.inr (htr op h)

theorem accTrace_applyBlock (param : Option String) (oid : String)
    (decode : String → Except Failure Int) (st : RunAcc) :
    ∀ op ∈ accTrace (applyBlock param oid decode st),
      op ∈ accTrace st ∨ SnmpOp.oid op = oid := by
  intro op hop
  cases st with
  | error e => simp only [applyBlock, accTrace] at hop; exact Or.inl hop
  | ok acc =>
    obtain ⟨d, hc, t⟩ := acc
    cases param with
    | none => simp only [applyBlock, accTrace] at hop; exact Or.inl hop
    | some s =>
      simp only [applyBlock] at hop
      exact accTrace_applySetting d hc t oid (decode s) op hop

theorem runOut_trace (acc : RunAcc) : (runOut acc).trace = accTrace acc := by
  cases acc with
  | error e => obtain ⟨f, d, t⟩ := e; rfl
  | ok a => obtain ⟨d, hc, t⟩ := a; rfl

theorem foldl_resolve (interface_name : String)
    (l : List (String × String)) (acc : Option String) :
    l.foldl
      (fun a p =>
        if interface_name = p.2 then some (pyRsplitDotLast p.1) else a) acc =
      match l.reverse.find? (fun p => interface_name == p.2) with
      | some p => some (pyRsplitDotLast p.1)
      | none => acc := by
  induction l generalizing acc with
  | nil => rfl
  | cons p l ih =>
    rw [List.foldl_cons, ih, List.reverse_cons, List.find?_append]
    cases hf : l.reverse.find? (fun q => interface_name == q.2) with
    | some q => rfl
    | none =>
      simp only [Option.none_or, List.find?]
      by_cases hn : interface_name = p.2
      · rw [show (interface_name == p.2) = true from beq_iff_eq.mpr hn]
        simp [hn]
      · rw [show (interface_name == p.2) = false from
          beq_eq_false_iff_ne.mpr hn]
        simp [hn]

theorem resolve_interface_eq_spec (interface_name : String)
    (vt : List (List (String × String))) :
    resolve_interface interface_name vt =
      spec_resolve_last interface_name vt.flatten := by
  unfold resolve_interface spec_resolve_last
  rw [← List.foldl_flatten, foldl_resolve]
  cases vt.flatten.reverse.find? (fun p => interface_name == p.2) <;> rfl

theorem countAtOid_eq_zero (oid : String) (t : List SnmpOp)
    (h : ∀ op ∈ t, SnmpOp.oid op ≠ oid) : countAtOid oid t = 0 := by
  unfold countAtOid
  rw [List.length_eq_zero, List.filter_eq_nil_iff]
  intro op hop
  simpa using h op hop

theorem applyBlock_none (oid : String)
    (decode : String → Except Failure Int) (st : RunAcc) :
    applyBlock none oid decode st = st := by
  cases st with
  | error e => rfl
  | ok a => obtain ⟨d, hc, t⟩ := a; rfl

theorem ne_of_length_ne (a b : String) (h : a.length ≠ b.length) :
    a ≠ b :=
  fun he => h (he ▸ rfl)

/-- C9: the enum codec maps each label to its fixed integer code:
CDP-state "enabled" ↦ 1 and "disabled" ↦ 2; port-mode "trunk" ↦ 1,
"access" ↦ 2, "desirable" ↦ 3, "auto" ↦ 4 and "trunk-nonegotiate" ↦ 5. -/
theorem enum_codec_fixed_codes :
    lookupAssoc CDP_STATE "enabled" = some 1 ∧
    lookupAssoc CDP_STATE "disabled" = some 2 ∧
    lookupAssoc PORT_MODE "trunk" = some 1 ∧
    lookupAssoc PORT_MODE "access" = some 2 ∧
    lookupAssoc PORT_MODE "desirable" = some 3 ∧
    lookupAssoc PORT_MODE "auto" = some 4 ∧
    lookupAssoc PORT_MODE "trunk-nonegotiate" = some 5 :=
  ⟨rfl, rfl, rfl, rfl, rfl, rfl, rfl⟩

/-- C4: the integer-valued codec parses the caller-supplied VLAN string as
a base-10 integer ("12" yields 12); a non-numeric string such as "abc"
fails (Python raises `ValueError`, the spec's `InvalidValue`) rather than
succeeding — at the codec level and propagated through the `access_vlan`
block of the orchestrator. -/
theorem vlan_codec_base10 :
    pyInt "12" = some 12 ∧
    pyInt "abc" = none ∧
    intIndex "12" = Except.ok 12 ∧
    intIndex "abc" =
      Except.error (Failure.pyError "invalid literal for int() with base 10") ∧
    (switchport_apply ⟨[], []⟩ "10001" none (some "abc") none).result =
      Except.error
        (Failure.pyError "invalid literal for int() with base 10") :=
  ⟨rfl, rfl, rfl, rfl, rfl⟩

/-- C5: the claim fails on the code.  The switchport argument spec accepts
the misspelled label "desireable" (while its own DOCUMENTATION block and
the `PORT_MODE` table spell it "desirable"), so a validated label reaches
`PORT_MODE[...]` with no matching key and the lookup raises `KeyError`
instead of never failing: the properly spelled "desirable" is not even
accepted by the argument spec.  The CDP tables do satisfy the claim. -/
theorem mode_choices_desireable_gap :
    "desireable" ∈ mode_choices ∧
    lookupAssoc PORT_MODE "desireable" = none ∧
    dictIndex PORT_MODE "desireable" =
      Except.error (Failure.pyError "KeyError: desireable") ∧
    "desirable" ∈ documented_mode_choices ∧
    "desirable" ∉ mode_choices ∧
    (∀ c ∈ cdp_choices, (lookupAssoc CDP_STATE c).isSome = true) ∧
    (switchport_apply ⟨[], []⟩ "10001" (some "desireable") none none).result =
      Except.error (Failure.pyError "KeyError: desireable") :=
  ⟨by decide, rfl, rfl, by decide, by decide, by decide, rfl⟩

/-- C3: name resolution returns the index (last dotted OID component) of
the LAST entry of the walk whose description exactly equals the requested
name; in particular, over a table with the single matching entry
("Gi0/1" at index 5), resolving "Gi0/1" returns index 5. -/
theorem resolve_interface_last_match :
    (∀ (interface_name : String) (vt : List (List (String × String))),
        resolve_interface interface_name vt =
          spec_resolve_last interface_name vt.flatten) ∧
    resolve_interface "Gi0/1" [[("1.3.6.1.2.1.2.2.1.2.5", "Gi0/1")]] =
      some "5" :=
  ⟨resolve_interface_eq_spec, rfl⟩

/-- C7: over a table with no entry whose description equals the requested
name (the empty table included), resolution fails with
"Unable to find interface" instead of returning an index. -/
theorem resolve_interface_not_found (interface_name : String)
    (vt : List (List (String × String)))
    (h : ∀ p ∈ vt.flatten, p.2 ≠ interface_name) :
    resolve_or_fail interface_name vt =
      Except.error "Unable to find interface" := by
  have hnone : resolve_interface interface_name vt = none := by
    rw [resolve_interface_eq_spec]
    unfold spec_resolve_last
    have hfind :
        vt.flatten.reverse.find? (fun p => interface_name == p.2) = none := by
      rw [List.find?_eq_none]
      intro p hp
      simp only [List.mem_reverse] at hp
      simp only [beq_iff_eq]
      exact fun he => h p hp he.symm
    rw [hfind]
    rfl
  unfold resolve_or_fail
  rw [hnone]

/-- Witness for C7: the empty table resolves to the failure. -/
theorem resolve_interface_not_found_witness :
    (∀ p ∈ (List.flatten ([] : List (List (String × String)))),
        p.2 ≠ "Gi0/1") ∧
    resolve_or_fail "Gi0/1" [] = Except.error "Unable to find interface" :=
  ⟨by simp, resolve_interface_not_found "Gi0/1" [] (by simp)⟩

theorem set_state_of_lookup_eq (dev : Device) (oid : String) (d : Int)
    (h : lookupAssoc dev.vals oid = some d) :
    set_state dev oid d = ⟨Except.ok false, dev, [SnmpOp.get oid]⟩ := by
  simp [set_state, h]

/-- C1: when the value read at the OID equals the desired value,
`set_state` returns changed = false, leaves the device untouched and
issues no SET; and after any successful `set_state` for `(oid, d)`, a
repeat `set_state` with the same desired state returns changed = false,
does not mutate the device and issues only the one GET. -/
theorem set_state_idempotent (dev dev0 : Device) (oid : String) (d : Int)
    (c : Bool)
    (h : lookupAssoc dev.vals oid = some d)
    (h0 : (set_state dev0 oid d).result = Except.ok c) :
    (set_state dev oid d).result = Except.ok false ∧
    (set_state dev oid d).dev = dev ∧
    countSets (set_state dev oid d).trace = 0 ∧
    set_state (set_state dev0 oid d).dev oid d =
      ⟨Except.ok false, (set_state dev0 oid d).dev, [SnmpOp.get oid]⟩ := by
  refine ⟨?_, ?_, ?_, ?_⟩
  · simp [set_state, h]
  · simp [set_state, h]
  · simp [set_state, h, countSets, SnmpOp.isSet]
  · exact set_state_of_lookup_eq _ _ _
      (set_state_lookup_after dev0 oid d c h0)

/-- Witness for C1: a device already holding 1 at the CDP-global OID, and
a second device holding 2 there that a first reconcile sets to 1. -/
theorem set_state_idempotent_witness :
    lookupAssoc (Device.mk [("1.3.6.1.4.1.9.9.23.1.3.1.0", 1)] []).vals
        "1.3.6.1.4.1.9.9.23.1.3.1.0" = some 1 ∧
    (set_state (Device.mk [("1.3.6.1.4.1.9.9.23.1.3.1.0", 2)] [])
        "1.3.6.1.4.1.9.9.23.1.3.1.0" 1).result = Except.ok true ∧
    ((set_state (Device.mk [("1.3.6.1.4.1.9.9.23.1.3.1.0", 1)] [])
        "1.3.6.1.4.1.9.9.23.1.3.1.0" 1).result = Except.ok false ∧
      (set_state (Device.mk [("1.3.6.1.4.1.9.9.23.1.3.1.0", 1)] [])
        "1.3.6.1.4.1.9.9.23.1.3.1.0" 1).dev =
          Device.mk [("1.3.6.1.4.1.9.9.23.1.3.1.0", 1)] [] ∧
      countSets (set_state (Device.mk [("1.3.6.1.4.1.9.9.23.1.3.1.0", 1)] [])
        "1.3.6.1.4.1.9.9.23.1.3.1.0" 1).trace = 0 ∧
      set_state (set_state (Device.mk [("1.3.6.1.4.1.9.9.23.1.3.1.0", 2)] [])
          "1.3.6.1.4.1.9.9.23.1.3.1.0" 1).dev "1.3.6.1.4.1.9.9.23.1.3.1.0" 1 =
        ⟨Except.ok false,
          (set_state (Device.mk [("1.3.6.1.4.1.9.9.23.1.3.1.0", 2)] [])
            "1.3.6.1.4.1.9.9.23.1.3.1.0" 1).dev,
          [SnmpOp.get "1.3.6.1.4.1.9.9.23.1.3.1.0"]⟩) :=
  ⟨rfl, rfl,
    set_state_idempotent
      (Device.mk [("1.3.6.1.4.1.9.9.23.1.3.1.0", 1)] [])
      (Device.mk [("1.3.6.1.4.1.9.9.23.1.3.1.0", 2)] [])
      "1.3.6.1.4.1.9.9.23.1.3.1.0" 1 true rfl rfl⟩

/-- C2: when the value read at the OID differs from the desired value and
the SET succeeds, `set_state` issues exactly one GET followed by exactly
one SET at that OID and returns changed = true. -/
theorem set_state_single_write (dev : Device) (oid : String) (cur d : Int)
    (hread : lookupAssoc dev.vals oid = some cur)
    (hne : cur ≠ d)
    (hw : oid ∉ dev.failWrite) :
    (set_state dev oid d).result = Except.ok true ∧
    (set_state dev oid d).trace = [SnmpOp.get oid, SnmpOp.set oid d] ∧
    countSets (set_state dev oid d).trace = 1 := by
  refine ⟨?_, ?_, ?_⟩ <;>
    simp [set_state, hread, hne, hw, countSets, SnmpOp.isSet]

/-- Witness for C2: the access-VLAN OID reads 5, the desired value is 12,
and the write is accepted. -/
theorem set_state_single_write_witness :
    lookupAssoc (Device.mk [("1.3.6.1.4.1.9.9.68.1.2.2.1.2.3", 5)] []).vals
        "1.3.6.1.4.1.9.9.68.1.2.2.1.2.3" = some 5 ∧
    (5 : Int) ≠ 12 ∧
    "1.3.6.1.4.1.9.9.68.1.2.2.1.2.3" ∉
      (Device.mk [("1.3.6.1.4.1.9.9.68.1.2.2.1.2.3", 5)] []).failWrite ∧
    ((set_state (Device.mk [("1.3.6.1.4.1.9.9.68.1.2.2.1.2.3", 5)] [])
        "1.3.6.1.4.1.9.9.68.1.2.2.1.2.3" 12).result = Except.ok true ∧
      (set_state (Device.mk [("1.3.6.1.4.1.9.9.68.1.2.2.1.2.3", 5)] [])
        "1.3.6.1.4.1.9.9.68.1.2.2.1.2.3" 12).trace =
          [SnmpOp.get "1.3.6.1.4.1.9.9.68.1.2.2.1.2.3",
           SnmpOp.set "1.3.6.1.4.1.9.9.68.1.2.2.1.2.3" 12] ∧
      countSets (set_state (Device.mk [("1.3.6.1.4.1.9.9.68.1.2.2.1.2.3", 5)]
        []) "1.3.6.1.4.1.9.9.68.1.2.2.1.2.3" 12).trace = 1) :=
  ⟨rfl, by decide, by decide,
    set_state_single_write
      (Device.mk [("1.3.6.1.4.1.9.9.68.1.2.2.1.2.3", 5)] [])
      "1.3.6.1.4.1.9.9.68.1.2.2.1.2.3" 5 12 rfl (by decide) (by decide)⟩

/-- C8: the overall changed result is the logical OR of the per-setting
changed flags (`changed_status` ORs each flag into the accumulator, which
starts at false); applying mode=access (changed) together with
access_vlan=12 (unchanged) yields overall changed = true. -/
theorem changed_or_aggregation :
    (∀ (c h : Bool), changed_status c h = (h || c)) ∧
    (∀ (c1 c2 c3 : Bool),
        changed_status c3 (changed_status c2 (changed_status c1 false)) =
          (c1 || c2 || c3)) ∧
    (switchport_apply
        (Device.mk
          [("1.3.6.1.4.1.9.9.46.1.6.1.1.13.10001", 1),
           ("1.3.6.1.4.1.9.9.68.1.2.2.1.2.10001", 12)] [])
        "10001" (some "access") (some "12") none).result = Except.ok true :=
  ⟨by decide, by decide, rfl⟩

/-- C6: when the SET of the second of three requested switchport settings
fails, the invocation fails with "Unable to write to device"
(`DeviceWriteError`), no operation is issued at the third setting's OID
(fail-fast), and the first setting's already-written value is not rolled
back. -/
theorem write_failure_fail_fast (dev : Device) (intf m av nv : String)
    (mv cur1 avv cur2 : Int)
    (hm : lookupAssoc PORT_MODE m = some mv)
    (hr1 : lookupAssoc dev.vals (vlanTrunkPortDynamicState ++ "." ++ intf) =
      some cur1)
    (hne1 : cur1 ≠ mv)
    (hw1 : (vlanTrunkPortDynamicState ++ "." ++ intf) ∉ dev.failWrite)
    (hav : pyInt av = some avv)
    (hr2 : lookupAssoc dev.vals (vmVlan ++ "." ++ intf) = some cur2)
    (hne2 : cur2 ≠ avv)
    (hw2 : (vmVlan ++ "." ++ intf) ∈ dev.failWrite) :
    (switchport_apply dev intf (some m) (some av) (some nv)).result =
      Except.error (Failure.failJson "Unable to write to device") ∧
    countAtOid (vlanTrunkPortNativeVlan ++ "." ++ intf)
      (switchport_apply dev intf (some m) (some av) (some nv)).trace = 0 ∧
    lookupAssoc
      (switchport_apply dev intf (some m) (some av) (some nv)).dev.vals
      (vlanTrunkPortDynamicState ++ "." ++ intf) = some mv := by
  have hvm_ne :
      (vmVlan ++ "." ++ intf) ≠ (vlanTrunkPortDynamicState ++ "." ++ intf) :=
    append_right_ne _ _ intf (by decide)
  have hlook2 :
      lookupAssoc
        (updateAssoc dev.vals (vlanTrunkPortDynamicState ++ "." ++ intf) mv)
        (vmVlan ++ "." ++ intf) = some cur2 := by
    rw [lookupAssoc_updateAssoc_ne _ _ _ _ hvm_ne]
    exact hr2
  have hrun : switchport_apply dev intf (some m) (some av) (some nv) =
      ⟨Except.error (Failure.failJson "Unable to write to device"),
       ⟨updateAssoc dev.vals (vlanTrunkPortDynamicState ++ "." ++ intf) mv,
        dev.failWrite⟩,
       [SnmpOp.get (vlanTrunkPortDynamicState ++ "." ++ intf),
        SnmpOp.set (vlanTrunkPortDynamicState ++ "." ++ intf) mv,
        SnmpOp.get (vmVlan ++ "." ++ intf),
        SnmpOp.set (vmVlan ++ "." ++ intf) avv]⟩ := by
    simp [switchport_apply, applyBlock, applySetting, dictIndex, intIndex,
      set_state, runOut, changed_status, hm, hr1, hne1, hw1, hav, hlook2,
      hne2, hw2]
  refine ⟨?_, ?_, ?_⟩
  · rw [hrun]
  · rw [hrun]
    have h1 : (vlanTrunkPortDynamicState ++ "." ++ intf) ≠
        (vlanTrunkPortNativeVlan ++ "." ++ intf) :=
      append_right_ne _ _ intf (by decide)
    have h2 : (vmVlan ++ "." ++ intf) ≠
        (vlanTrunkPortNativeVlan ++ "." ++ intf) :=
      append_right_ne _ _ intf (by decide)
    simp [countAtOid, SnmpOp.oid, h1, h2]
  · rw [hrun]
    exact lookupAssoc_updateAssoc_self dev.vals _ mv cur1 hr1

/-- Witness for C6: mode=trunk must change 2→1 (write accepted),
access_vlan=12 must change 5→12 but that OID's SET fails, native_vlan=99
is requested but never touched. -/
theorem write_failure_fail_fast_witness :
    lookupAssoc PORT_MODE "trunk" = some 1 ∧
    pyInt "12" = some 12 ∧
    ((switchport_apply
        (Device.mk
          [("1.3.6.1.4.1.9.9.46.1.6.1.1.13.7", 2),
           ("1.3.6.1.4.1.9.9.68.1.2.2.1.2.7", 5)]
          ["1.3.6.1.4.1.9.9.68.1.2.2.1.2.7"])
        "7" (some "trunk") (some "12") (some "99")).result =
      Except.error (Failure.failJson "Unable to write to device") ∧
    countAtOid (vlanTrunkPortNativeVlan ++ "." ++ "7")
      (switchport_apply
        (Device.mk
          [("1.3.6.1.4.1.9.9.46.1.6.1.1.13.7", 2),
           ("1.3.6.1.4.1.9.9.68.1.2.2.1.2.7", 5)]
          ["1.3.6.1.4.1.9.9.68.1.2.2.1.2.7"])
        "7" (some "trunk") (some "12") (some "99")).trace = 0 ∧
    lookupAssoc
      (switchport_apply
        (Device.mk
          [("1.3.6.1.4.1.9.9.46.1.6.1.1.13.7", 2),
           ("1.3.6.1.4.1.9.9.68.1.2.2.1.2.7", 5)]
          ["1.3.6.1.4.1.9.9.68.1.2.2.1.2.7"])
        "7" (some "trunk") (some "12") (some "99")).dev.vals
      (vlanTrunkPortDynamicState ++ "." ++ "7") = some 1) :=
  ⟨rfl, rfl,
    write_failure_fail_fast
      (Device.mk
        [("1.3.6.1.4.1.9.9.46.1.6.1.1.13.7", 2),
         ("1.3.6.1.4.1.9.9.68.1.2.2.1.2.7", 5)]
        ["1.3.6.1.4.1.9.9.68.1.2.2.1.2.7"])
      "7" "trunk" "12" "99" 1 2 12 5 rfl (by decide) (by decide) (by decide)
      rfl (by decide) (by decide) (by decide)⟩

/-- C10: an invocation issues no GET and no SET at the OID of a setting
whose parameter is absent: with `access_vlan` absent no operation touches
the `vmVlan` OID, with `native_vlan` absent none touches the
`vlanTrunkPortNativeVlan` OID, with `cdp_global` absent none touches
`cdpGlobalRun.0`, and with `cdp_interface` absent none touches the
`cdpInterfaceEnable` OID of the interface. -/
theorem absent_setting_oid_untouched (dev : Device) (intf : String)
    (mode av nv cdpg cdpi : Option String) :
    countAtOid (vmVlan ++ "." ++ intf)
      (switchport_apply dev intf mode none nv).trace = 0 ∧
    countAtOid (vlanTrunkPortNativeVlan ++ "." ++ intf)
      (switchport_apply dev intf mode av none).trace = 0 ∧
    countAtOid (cdpGlobalRun ++ ".0")
      (cdp_apply dev intf none cdpi).trace = 0 ∧
    countAtOid (cdpInterfaceEnable ++ "." ++ intf)
      (cdp_apply dev intf cdpg none).trace = 0 := by
  refine ⟨?_, ?_, ?_, ?_⟩
  · apply countAtOid_eq_zero
    intro op hop
    unfold switchport_apply at hop
    rw [runOut_trace, applyBlock_none] at hop
    rcases accTrace_applyBlock _ _ _ _ op hop with h1 | h1
    · rcases accTrace_applyBlock _ _ _ _ op h1 with h2 | h2
      · simp [accTrace] at h2
      · rw [h2]
        exact append_right_ne _ _ intf (by decide)
    · rw [h1]
      exact append_right_ne _ _ intf (by decide)
  · apply countAtOid_eq_zero
    intro op hop
    unfold switchport_apply at hop
    rw [runOut_trace, applyBlock_none] at hop
    rcases accTrace_applyBlock _ _ _ _ op hop with h1 | h1
    · rcases accTrace_applyBlock _ _ _ _ op h1 with h2 | h2
      · simp [accTrace] at h2
      · rw [h2]
        exact append_right_ne _ _ intf (by decide)
    · rw [h1]
      exact append_right_ne _ _ intf (by decide)
  · apply countAtOid_eq_zero
    intro op hop
    unfold cdp_apply at hop
    rw [runOut_trace] at hop
    rcases accTrace_applyBlock _ _ _ _ op hop with h1 | h1
    · rw [applyBlock_none] at h1
      simp [accTrace] at h1
    · rw [h1]
      intro he
      have hlen := congrArg String.length he
      have e1 : cdpInterfaceEnable.length = 28 := rfl
      have e2 : cdpGlobalRun.length = 24 := rfl
      have e3 : String.length "." = 1 := rfl
      have e4 : String.length ".0" = 2 := rfl
      simp only [String.length_append, e1, e2, e3, e4] at hlen
      omega
  · apply countAtOid_eq_zero
    intro op hop
    unfold cdp_apply at hop
    rw [runOut_trace, applyBlock_none] at hop
    rcases accTrace_applyBlock _ _ _ _ op hop with h1 | h1
    · simp [accTrace] at h1
    · rw [h1]
      intro he
      have hlen := congrArg String.length he
      have e1 : cdpInterfaceEnable.length = 28 := rfl
      have e2 : cdpGlobalRun.length = 24 := rfl
      have e3 : String.length "." = 1 := rfl
      have e4 : String.length ".0" = 2 := rfl
      simp only [String.length_append, e1, e2, e3, e4] at hlen
      omega
